import Mathlib

/-!
# Verification of the Sage OpenCode plugin core

A shallow embedding of the suggestion/correlation/feedback subsystem of the
Sage OpenCode plugin (`SagePlugin`).  Pure helpers of the plugin become Lean
functions; the mutable closure state becomes an explicit `PluginState`
record; each event handler becomes a function from state (plus the event
data and the ambient clock value) to a new state together with the list of
external calls it issues.  JavaScript `null`/`undefined` become `Option`,
JS number timestamps become `Int`, and the floating-point overlap ratio is
modelled over `ℚ` (all ratios involved are small rationals `k / max-length`
whose comparisons against the literal thresholds 0.7 / 0.3 agree with the
IEEE-double comparisons performed by the source).  `JSON.parse` of the
suggestion fetch output is modelled as an oracle argument (`FetchParse`)
describing its outcome, since the wire format is owned by the external tool.
-/

namespace Sage

/-! ## JS-style string utilities -/

/-- Whitespace test used for trimming and for the `/\s+/` split. -/
def isWs (c : Char) : Bool := c.isWhitespace

/-- Drop leading and trailing whitespace from a character list
(JS `String.prototype.trim`). -/
def trimChars (cs : List Char) : List Char :=
  ((cs.dropWhile isWs).reverse.dropWhile isWs).reverse

/-- JS `String.prototype.trim` on strings. -/
def jsTrim (s : String) : String := String.mk (trimChars s.data)

/-- JS `String.prototype.split(sep)` for a one-character separator:
splits at every occurrence, keeping empty pieces. -/
def splitOnChar (sep : Char) : List Char → List (List Char)
  | [] => [[]]
  | c :: cs =>
    if c = sep then [] :: splitOnChar sep cs
    else
      match splitOnChar sep cs with
      | [] => [[c]]
      | t :: ts => (c :: t) :: ts

/-- Split a character list into its maximal whitespace-free runs
(the behaviour of JS `split(/\s+/)` on a string with no leading or
trailing whitespace). -/
def wsRuns : List Char → List Char → List (List Char)
  | acc, [] => if acc = [] then [] else [acc.reverse]
  | acc, c :: cs =>
    if isWs c then
      if acc = [] then wsRuns [] cs else acc.reverse :: wsRuns [] cs
    else wsRuns (c :: acc) cs

/-- `s.toLowerCase().trim().split(/\s+/)` from the source
(`analyzePromptCorrelation`).  On the empty trimmed string JS yields
`[""]`; otherwise the whitespace-separated tokens. -/
def jsTokens (s : String) : List String :=
  let t := trimChars (s.data.map Char.toLower)
  match wsRuns [] t with
  | [] => [""]
  | l => l.map (fun w => String.mk w)

/-- `Array.prototype.join(sep)`. -/
def joinSep (sep : String) : List String → String
  | [] => ""
  | [a] => a
  | a :: b :: rest => a ++ sep ++ joinSep sep (b :: rest)

/-- JS truthiness of a nullable string (`null`/`undefined`/`""` are falsy). -/
def jsTruthyStr : Option String → Bool
  | none => false
  | some s => s ≠ ""

/-- JS truthiness of a nullable number (`null`/`undefined`/`0` are falsy). -/
def jsTruthyInt : Option Int → Bool
  | none => false
  | some n => n ≠ 0

/-- `new ?? old`: keep `old` only when the incoming value is nullish. -/
def nullishKeep (fresh old : Option String) : Option String :=
  match fresh with
  | some v => some v
  | none => old

/-! ## Correlation analyzer (`analyzePromptCorrelation`, source lines 203-251) -/

/-- `SUGGESTION_CORRELATION_WINDOW_MS` from the source. -/
def SUGGESTION_CORRELATION_WINDOW_MS : Int := 30000

/-- The `type` field of a correlation result
(`"accepted" | "steered" | "rejected"`). -/
inductive CorrType
  | accepted
  | steered
  | rejected
deriving DecidableEq, Repr

/-- The object returned by `analyzePromptCorrelation` when non-null.
`added`/`removed` are present only for the `steered` shape. -/
structure Correlation where
  ctype : CorrType
  key : String
  overlap : ℚ
  added : Option (List String)
  removed : Option (List String)
deriving DecidableEq, Repr

/-- `userKeywords.filter((k) => suggestionKeywords.includes(k)).length`:
user tokens (each occurrence counted) present among the suggestion tokens. -/
def overlapCount (u sg : List String) : ℕ :=
  (u.filter (fun k => sg.contains k)).length

/-- The overlap ratio the source computes:
`overlap.length / Math.max(userKeywords.length, suggestionKeywords.length)`.
Written with `mkRat` (numerator over positive denominator), which equals the
field division `(count : ℚ) / (max : ℚ)`; see `overlapRatioOf_eq_div`. -/
def overlapRatioOf (userPrompt sug : String) : ℚ :=
  let u := jsTokens userPrompt
  let sg := jsTokens sug
  mkRat (overlapCount u sg) (max u.length sg.length)

/-- The literal `0.7` of the source. -/
def acceptThreshold : ℚ := mkRat 7 10

/-- The literal `0.3` of the source. -/
def steerThreshold : ℚ := mkRat 3 10

/-- The containment ratio as the spec words it: the count of lower-cased
whitespace-split user tokens that occur (by membership, each occurrence
counted, no prior deduplication) among the suggestion tokens, divided by
the larger of the two token counts. -/
def specOverlapRatio (userPrompt sug : String) : ℚ :=
  (((jsTokens userPrompt).countP (fun w => decide (w ∈ jsTokens sug))) : ℚ) /
    ((max (jsTokens userPrompt).length (jsTokens sug).length : ℕ) : ℚ)

/-- `userKeywords.filter((k) => !suggestionKeywords.includes(k))`. -/
def addedKeywords (userPrompt sug : String) : List String :=
  (jsTokens userPrompt).filter (fun k => !(jsTokens sug).contains k)

/-- `suggestionKeywords.filter((k) => !userKeywords.includes(k))`. -/
def removedKeywords (userPrompt sug : String) : List String :=
  (jsTokens sug).filter (fun k => !(jsTokens userPrompt).contains k)

/-- `analyzePromptCorrelation(userPrompt)` as a function of the closure state
it reads (`lastSuggestion`, `lastSuggestionTimestamp`,
`lastSuggestionPromptKey`), the current clock (`Date.now()`), and its
argument. -/
def analyzePromptCorrelation (lastSuggestion : Option String)
    (lastSuggestionTimestamp : Option Int) (lastSuggestionPromptKey : Option String)
    (now : Int) (userPrompt : String) : Option Correlation :=
  match lastSuggestion, lastSuggestionTimestamp with
  | some sug, some ts =>
    if sug = "" ∨ ts = 0 then none
    else if now - ts > SUGGESTION_CORRELATION_WINDOW_MS then none
    else
      match lastSuggestionPromptKey with
      | none => none
      | some k =>
        if k = "" then none
        else
          let ratio := overlapRatioOf userPrompt sug
          if ratio > acceptThreshold then
            some ⟨.accepted, k, ratio, none, none⟩
          else if ratio > steerThreshold then
            some ⟨.steered, k, ratio, some (addedKeywords userPrompt sug),
              some (removedKeywords userPrompt sug)⟩
          else
            some ⟨.rejected, k, ratio, none, none⟩
  | _, _ => none

/-! ## Marker parser (`parsePromptKeyMarkers`, source lines 38-50)

The source scans with the global regex `\[\[sage:prompt_key=([^\]]+)\]\]`:
a literal opener, one or more non-`]` characters, then `]]`.  The scan is
modelled on character lists, trying a match at each position and resuming
after the end of a successful match, exactly as the regex engine does. -/

/-- Consume an expected literal run of characters, returning the remainder. -/
def takeLit : List Char → List Char → Option (List Char)
  | [], cs => some cs
  | _ :: _, [] => none
  | p :: ps, c :: cs => if c = p then takeLit ps cs else none

/-- The marker opener `[[sage:prompt_key=`. -/
def markerLit : List Char := "[[sage:prompt_key=".data

/-- Try the marker regex anchored at the head of `cs`; on success return the
captured group (the maximal non-empty run of non-`]` characters) and the
characters following the closing `]]`. -/
def matchMarkerAt (cs : List Char) : Option (String × List Char) :=
  match takeLit markerLit cs with
  | none => none
  | some rest =>
    let cap := rest.takeWhile (fun c => c ≠ ']')
    if cap.isEmpty then none
    else
      match rest.dropWhile (fun c => c ≠ ']') with
      | ']' :: ']' :: rest2 => some (String.mk cap, rest2)
      | _ => none

/-- The regex-global scan: attempt a match at every position, continuing
after each successful match.  `fuel` bounds the recursion; it is always
called with the length of the text, which suffices since every step
consumes at least one character. -/
def scanMarkersAux : ℕ → List Char → List String
  | 0, _ => []
  | _ + 1, [] => []
  | fuel + 1, c :: cs =>
    match matchMarkerAt (c :: cs) with
    | some (k, rest) => k :: scanMarkersAux fuel rest
    | none => scanMarkersAux fuel cs

/-- First-seen-order deduplication (the `Set` in the source). -/
def dedupKeepFirst (l : List String) : List String :=
  l.foldl (fun acc k => if acc.contains k then acc else acc ++ [k]) []

/-- `parsePromptKeyMarkers(text)`: each captured group is trimmed, empty
results are dropped, and duplicates collapse to their first occurrence. -/
def parsePromptKeyMarkers (text : String) : List String :=
  dedupKeepFirst
    (((scanMarkersAux text.data.length text.data).map jsTrim).filter (fun k => k ≠ ""))

/-! ## Suggestion-key extraction (`parseSuggestionKey`, source lines 146-165)

Two regexes, embedded with their backtracking behaviour:
`/\(key:\s*([^)]+)\)/` searched anywhere in the text, then per line the
anchored `/^\s*[-•*]?\s*([a-z0-9-]+)(?:\s*[-:]\s*|\s*$)/` whose capture must
contain a `-`. -/

/-- The literal `(key:` opening the first regex. -/
def parenLit : List Char := "(key:".data

/-- Try `/\(key:\s*([^)]+)\)/` anchored at the head of `cs`.  The capture
`\s*([^)]+)` matches exactly when the non-`)` run after the literal is
non-empty; since the result is immediately trimmed by the caller, the
match is returned as that whole run (trimming commutes with the
greedy-`\s*`/backtracking split of the run). -/
def matchParenKeyAt (cs : List Char) : Option String :=
  match takeLit parenLit cs with
  | none => none
  | some rest =>
    let w := rest.takeWhile (fun c => c ≠ ')')
    if w.isEmpty then none
    else
      match rest.dropWhile (fun c => c ≠ ')') with
      | ')' :: _ => some (String.mk w)
      | _ => none

/-- Leftmost search for the `(key: ...)` pattern. -/
def scanParenKeyAux : ℕ → List Char → Option String
  | 0, _ => none
  | _ + 1, [] => none
  | fuel + 1, c :: cs =>
    match matchParenKeyAt (c :: cs) with
    | some k => some k
    | none => scanParenKeyAux fuel cs

/-- The character class `[a-z0-9-]`. -/
def isKeyChar (c : Char) : Bool :=
  ('a' ≤ c && c ≤ 'z') || ('0' ≤ c && c ≤ '9') || c = '-'

/-- Whether the tail alternation `(?:\s*[-:]\s*|\s*$)` matches at `rest`. -/
def lineAltOk (rest : List Char) : Bool :=
  match rest.dropWhile isWs with
  | [] => true
  | c :: _ => c = '-' || c = ':'

/-- Match `\s*([a-z0-9-]+)(?:\s*[-:]\s*|\s*$)` at `cs` and return the
capture.  The greedy capture backtracks at most one character: only its
final `-` can be released to satisfy the `[-:]` branch (any longer
give-back would put a key character where `\s*` must match). -/
def lineCapAt (cs : List Char) : Option (List Char) :=
  let cs2 := cs.dropWhile isWs
  let cap := cs2.takeWhile isKeyChar
  let rest := cs2.drop cap.length
  if cap.isEmpty then none
  else if lineAltOk rest then some cap
  else if 2 ≤ cap.length && cap.getLast? = some '-' then some cap.dropLast
  else none

/-- Match the full line regex `^\s*[-•*]?\s*([a-z0-9-]+)(?:\s*[-:]\s*|\s*$)`
(anchored at the start of the line).  The optional bullet is tried greedily
first; if the rest of the pattern fails it is retried as not consumed. -/
def matchLineKey (line : List Char) : Option (List Char) :=
  let s1 := line.dropWhile isWs
  match s1 with
  | [] => none
  | c :: rest =>
    if c = '-' || c = '•' || c = '*' then
      match lineCapAt rest with
      | some cap => some cap
      | none => lineCapAt s1
    else lineCapAt s1

/-- `parseSuggestionKey(suggestionText)`: first the `(key: ...)` pattern
(whose capture is trimmed and returned even if blank), else the first line
whose anchored match captures a string containing `-`; otherwise null. -/
def parseSuggestionKey (text : String) : Option String :=
  match scanParenKeyAux text.data.length text.data with
  | some m1 => some (jsTrim m1)
  | none =>
    (splitOnChar '\n' text.data).findSome? (fun line =>
      match matchLineKey line with
      | some cap => if cap.contains '-' then some (String.mk cap) else none
      | none => none)

/-! ## Plugin state

The mutable closure variables of `SagePlugin` (source lines 17-35), plus the
pending debounce timer, modelled as the generation it captured (`none` when
no timer is pending). -/

structure PluginState where
  promptCaptured : Bool
  lastInput : String
  lastInjected : String
  runId : ℕ
  timer : Option ℕ
  currentSessionId : Option String
  currentModel : Option String
  assistantParts : List String
  lastSuggestion : Option String
  lastSuggestionTimestamp : Option Int
  lastSuggestionPromptKey : Option String
  lastSuggestionId : Option String
  lastShownPromptKeys : List String
  lastAcceptedFeedbackSent : Bool
  lastImplicitFeedbackSent : Bool
deriving DecidableEq, Repr

/-- The closure state right after the plugin factory runs. -/
def initialState : PluginState :=
  { promptCaptured := false
    lastInput := ""
    lastInjected := ""
    runId := 0
    timer := none
    currentSessionId := none
    currentModel := none
    assistantParts := []
    lastSuggestion := none
    lastSuggestionTimestamp := none
    lastSuggestionPromptKey := none
    lastSuggestionId := none
    lastShownPromptKeys := []
    lastAcceptedFeedbackSent := false
    lastImplicitFeedbackSent := false }

/-! ## External calls (the feedback emitter's event vocabulary) -/

/-- The `kind` strings of `suggest prompt feedback` events. -/
inductive FbKind
  | accepted
  | steered
  | rejected
  | implicitly_helpful
deriving DecidableEq, Repr

/-- One entry of the `--events-json` payload of
`recordPromptSuggestionFeedback`. -/
structure FbEvent where
  kind : FbKind
  prompt_key : String
  confidence : ℚ
deriving DecidableEq, Repr

/-- The single-line legacy feedback entry built in the `chat.message`
handler, kept structured (date, classification and its data) rather than as
the rendered string. -/
inductive FeedbackLine
  | acceptedLine (date : String) (overlap : ℚ)
  | steeredLine (date : String) (added removed : List String)
  | rejectedLine (date : String) (overlap : ℚ)
deriving DecidableEq, Repr

/-- External calls a handler can issue, in order. -/
inductive Event
  | rlmFeedback (promptKey : String) (line : FeedbackLine)
  | suggestionFeedback (suggestionId : String) (events : List FbEvent)
  | capturePrompt (content : String)
  | captureResponse (response : String)
deriving DecidableEq, Repr

/-- Number of `implicitly_helpful` entries across the feedback calls in an
event list. -/
def implicitCount (evs : List Event) : ℕ :=
  (evs.map (fun e =>
    match e with
    | .suggestionFeedback _ fes =>
      (fes.filter (fun fe => fe.kind = FbKind.implicitly_helpful)).length
    | _ => 0)).sum

/-- Whether an event is a correlation-classification feedback call (either
the legacy single-line append or a daemon feedback call carrying an
accepted/steered/rejected entry). -/
def isCorrFb (e : Event) : Bool :=
  match e with
  | .rlmFeedback _ _ => true
  | .suggestionFeedback _ fes =>
    fes.any (fun fe =>
      fe.kind = FbKind.accepted || fe.kind = FbKind.steered || fe.kind = FbKind.rejected)
  | _ => false

/-! ## Suggestion scheduler (`scheduleSuggest`, source lines 253-374) -/

/-- One element of the `results` array of the suggestion fetch JSON.
Absent (`undefined`) string fields are modelled as `""`, which the source
treats identically under its truthiness checks. -/
structure SuggestResult where
  name : String
  description : String
  key : String
  library : String
  content : String
deriving DecidableEq, Repr

/-- `r.library ? `lib/key` : r.key` — the qualified key of a candidate. -/
def qualifiedKeyOf (r : SuggestResult) : String :=
  if r.library ≠ "" then r.library ++ "/" ++ r.key else r.key

/-- `json.results.map(qualify).filter(Boolean)` (source lines 297-299). -/
def buildShownKeys (results : List SuggestResult) : List String :=
  (results.map qualifiedKeyOf).filter (fun k => k ≠ "")

/-- `json.results.map(r => `${r.name} ${r.description || ""} ${r.key}`).join(" ")`. -/
def correlationTextOf (results : List SuggestResult) : String :=
  joinSep " " (results.map (fun r => r.name ++ " " ++ r.description ++ " " ++ r.key))

/-- The per-candidate rendered markdown block (source lines 310-318). -/
def renderBlock (r : SuggestResult) : String :=
  let qk := qualifiedKeyOf r
  let b1 := "### " ++ r.name ++ " (key: " ++ qk ++ ")\n"
  let b2 := if r.library ≠ "" then b1 ++ "*Library: " ++ r.library ++ "*\n" else b1
  let b3 := if r.description ≠ "" then b2 ++ r.description ++ "\n" else b2
  let b4 := if r.content ≠ "" then b3 ++ "\n```\n" ++ r.content ++ "\n```\n" else b3
  b4 ++ "\n<!-- If you use this suggestion, include marker: [[sage:prompt_key=" ++ qk ++ "]] -->\n"

/-- `json.results.map(render).join("\n---\n\n")`. -/
def renderResults (results : List SuggestResult) : String :=
  joinSep "\n---\n\n" (results.map renderBlock)

/-- Outcome of `JSON.parse` on the fetch output (owned by the external
tool, hence an oracle input): `malformed` for a parse exception (the
raw-text fallback), otherwise the parsed `results` field — `none` when it
is missing or not an array. -/
inductive FetchParse
  | malformed
  | parsed (results : Option (List SuggestResult))
deriving DecidableEq, Repr

/-- The assignments the timer callback performs when it installs a new
Suggestion (source lines 336-343 and 365). -/
structure SuggWrites where
  correlationText : String
  timestamp : Int
  primaryKey : Option String
  suggestionId : String
  shownKeys : List String
  injectedPrompt : String
deriving DecidableEq, Repr

/-- Which externally visible actions the timer callback performed. -/
structure TimerEffects where
  didFetch : Bool
  didCapture : Bool
  didInject : Bool
deriving DecidableEq, Repr

/-- No fetch, no daemon capture, no UI injection. -/
def noEffects : TimerEffects := ⟨false, false, false⟩

/-- Install a `SuggWrites` record into the state (the mutations of source
lines 336-343 and 365). -/
def applySuggWrites (s : PluginState) (w : SuggWrites) : PluginState :=
  { s with
    lastSuggestion := some w.correlationText
    lastSuggestionTimestamp := some w.timestamp
    lastSuggestionPromptKey := w.primaryKey
    lastSuggestionId := some w.suggestionId
    lastShownPromptKeys := w.shownKeys
    lastAcceptedFeedbackSent := false
    lastImplicitFeedbackSent := false
    lastInjected := w.injectedPrompt }

/-- The debounce-timer callback (source lines 260-372) as a single-shot
function.  `current` is the generation captured when the timer was armed;
`s1` is the live state observed when the callback starts (its guards read
`lastInput`, `runId` and `lastInjected` before any suspension);
`runIdAfterFetch` is the live `runId` observed after the `execSage` await
returns; `output` is the fetch's trimmed stdout and `parse` the outcome of
`JSON.parse` on it; `now` is `Date.now()` at install time and `newId` the
generated suggestion id.  Returns the state writes it performs (`none` for
an abort) and its effects. -/
def timerFire (current : ℕ) (s1 : PluginState) (runIdAfterFetch : ℕ)
    (output : String) (parse : FetchParse) (now : Int) (newId : String) :
    Option SuggWrites × TimerEffects :=
  let prompt := jsTrim s1.lastInput
  if prompt = "" then (none, noEffects)
  else if current ≠ s1.runId then (none, noEffects)
  else if prompt = s1.lastInjected then (none, noEffects)
  else if output = "" then (none, ⟨true, false, false⟩)
  else if current ≠ runIdAfterFetch then (none, ⟨true, false, false⟩)
  else
    match parse with
    | .parsed (some results) =>
      if results.length > 0 then
        let renderedOutput := renderResults results
        if renderedOutput = "" then (none, ⟨true, false, false⟩)
        else
          (some ⟨correlationTextOf results, now, (buildShownKeys results).head?, newId,
             buildShownKeys results, prompt⟩,
           ⟨true, true, true⟩)
      else (none, ⟨true, false, false⟩)
    | .parsed none => (none, ⟨true, false, false⟩)
    | .malformed =>
      if output = "" then (none, ⟨true, false, false⟩)
      else
        (some ⟨output, now, parseSuggestionKey output, newId, [], prompt⟩,
         ⟨true, true, true⟩)

/-- `scheduleSuggest(text)` (source lines 253-258 plus arming the timer):
records the input, bumps the generation and (re)arms the debounce timer
capturing the new generation. -/
def scheduleSuggest (s : PluginState) (text : String) : PluginState :=
  { s with lastInput := text, runId := s.runId + 1, timer := some (s.runId + 1) }

/-- The `tui.prompt.append` event handler (source lines 547-553). -/
def tuiPromptAppend (s : PluginState) (text : String) : PluginState :=
  if jsTrim text ≠ "" then scheduleSuggest s text else s

/-! ## Session/capture state machine -/

/-- The fields of the structured `chat.message` hook input the handler
reads. -/
structure ChatInput where
  sessionID : Option String
  modelID : Option String
deriving DecidableEq, Repr

/-- One entry of `output.parts`. -/
structure MsgPart where
  ptype : String
  text : Option String
deriving DecidableEq, Repr

/-- `output.parts.filter(p => p.type === "text").map(p => p.text ?? "").join("\n")`. -/
def partsContent (parts : List MsgPart) : String :=
  joinSep "\n" ((parts.filter (fun p => p.ptype = "text")).map (fun p => p.text.getD ""))

/-- The `feedbackEntry` built by the `switch` on the correlation type
(source lines 399-412), structured. -/
def mkFeedbackLine (today : String) (corr : Correlation) : FeedbackLine :=
  match corr.ctype with
  | .accepted => .acceptedLine today corr.overlap
  | .steered => .steeredLine today ((corr.added.getD []).take 3) ((corr.removed.getD []).take 3)
  | .rejected => .rejectedLine today corr.overlap

/-- The feedback-event kind corresponding to `correlation.type`. -/
def fbKindOf : CorrType → FbKind
  | .accepted => .accepted
  | .steered => .steered
  | .rejected => .rejected

/-- The `chat.message` handler (source lines 378-450).  `enableRlm` is
`CONFIG.enableRlmFeedback`; `captureOk` tells whether the trailing
`capture hook prompt` subprocess call succeeds (on failure the handler
reverts `promptCaptured`); `now` is `Date.now()` and `today` the date
stamp used in the legacy feedback line. -/
def chatMessage (enableRlm : Bool) (captureOk : Bool) (s : PluginState)
    (input : ChatInput) (parts : List MsgPart) (now : Int) (today : String) :
    PluginState × List Event :=
  let s1 := { s with
    currentSessionId := nullishKeep input.sessionID s.currentSessionId
    currentModel := nullishKeep input.modelID s.currentModel }
  let content := partsContent parts
  if jsTrim content = "" then (s1, [])
  else
    let s2 := { s1 with promptCaptured := true, assistantParts := [] }
    let correlation := analyzePromptCorrelation s2.lastSuggestion s2.lastSuggestionTimestamp
      s2.lastSuggestionPromptKey now content
    let step :=
      match correlation with
      | none => (s2, ([] : List Event))
      | some corr =>
        let line := mkFeedbackLine today corr
        let evsA : List Event :=
          if enableRlm && corr.key ≠ "" then [Event.rlmFeedback corr.key line] else []
        if jsTruthyStr s2.lastSuggestionId && !s2.lastAcceptedFeedbackSent then
          ({ s2 with lastAcceptedFeedbackSent := true },
           evsA ++ [Event.suggestionFeedback (s2.lastSuggestionId.getD "")
             [⟨fbKindOf corr.ctype, corr.key, corr.overlap⟩]])
        else (s2, evsA)
    let s4 := if captureOk then step.1 else { step.1 with promptCaptured := false }
    (s4, step.2 ++ [Event.capturePrompt content])

/-- The `message.part.updated` handler (source lines 456-464). -/
def messagePartUpdated (s : PluginState) (ptype : String) (text : Option String) :
    PluginState :=
  if ptype = "text" && s.promptCaptured then
    { s with assistantParts := s.assistantParts ++ [text.getD ""] }
  else s

/-- The `message.updated` handler (source lines 466-531).  `role` is
`properties.info.role`; `now` is `Date.now()` for this invocation. -/
def messageUpdated (s : PluginState) (role : Option String) (now : Int) :
    PluginState × List Event :=
  if role = some "assistant" && s.promptCaptured then
    let responseText := String.join s.assistantParts
    let step :=
      if jsTrim responseText ≠ "" then
        let inner :=
          if jsTruthyStr s.lastSuggestionId && jsTruthyInt s.lastSuggestionTimestamp &&
             !s.lastImplicitFeedbackSent &&
             decide (now - s.lastSuggestionTimestamp.getD 0 ≤ SUGGESTION_CORRELATION_WINDOW_MS) then
            let marked := parsePromptKeyMarkers responseText
            let matched := marked.filter (fun k => s.lastShownPromptKeys.contains k)
            if matched.length = 1 then
              ({ s with lastImplicitFeedbackSent := true },
               [Event.suggestionFeedback (s.lastSuggestionId.getD "")
                 [⟨FbKind.implicitly_helpful, matched.headI, 1⟩]])
            else (s, ([] : List Event))
          else (s, ([] : List Event))
        (inner.1, inner.2 ++ [Event.captureResponse responseText])
      else (s, ([] : List Event))
    let s2 := { step.1 with promptCaptured := false, assistantParts := [] }
    if jsTruthyInt s2.lastSuggestionTimestamp &&
       decide (now - s2.lastSuggestionTimestamp.getD 0 > SUGGESTION_CORRELATION_WINDOW_MS) then
      ({ s2 with
          lastSuggestion := none
          lastSuggestionTimestamp := none
          lastSuggestionPromptKey := none
          lastSuggestionId := none
          lastShownPromptKeys := []
          lastAcceptedFeedbackSent := false
          lastImplicitFeedbackSent := false }, step.2)
    else (s2, step.2)
  else (s, [])

/-- The fields of the `session.created` event the handler reads. -/
structure SessionInfo where
  id : Option String
  parentID : Option String
deriving DecidableEq, Repr

/-- The `session.created` handler (source lines 533-545). -/
def sessionCreated (s : PluginState) (info : SessionInfo) : PluginState :=
  { s with
    currentSessionId := info.id
    promptCaptured := false
    assistantParts := [] }

/-! ## General lemmas -/

/-- The `mkRat` form of the 0.7 threshold is the field-division literal. -/
theorem acceptThreshold_eq_div : acceptThreshold = 7 / 10 := by
  rw [acceptThreshold, Rat.mkRat_eq_divInt, Rat.divInt_eq_div]; norm_num

/-- The `mkRat` form of the 0.3 threshold is the field-division literal. -/
theorem steerThreshold_eq_div : steerThreshold = 3 / 10 := by
  rw [steerThreshold, Rat.mkRat_eq_divInt, Rat.divInt_eq_div]; norm_num

/-- JS `split` never returns an empty array: the token list of any string
has at least one element. -/
theorem one_le_jsTokens_length (s : String) : 1 ≤ (jsTokens s).length := by
  unfold jsTokens
  simp only []
  cases h : wsRuns [] (trimChars (s.data.map Char.toLower)) with
  | nil => simp only [h]; simp
  | cons a l => simp only [h]; simp

/-- The overlap ratio as the field division of the claim. -/
theorem overlapRatioOf_eq_div (userPrompt sug : String) :
    overlapRatioOf userPrompt sug =
      (overlapCount (jsTokens userPrompt) (jsTokens sug) : ℚ) /
        ((max (jsTokens userPrompt).length (jsTokens sug).length : ℕ) : ℚ) := by
  rw [overlapRatioOf, Rat.mkRat_eq_divInt, Rat.divInt_eq_div]
  push_cast
  rfl

/-! ## Claim theorems -/

/-- **C9** — `session.created` always resets the capture state to Idle
(`promptCaptured = false`), clears the assistant buffer, and adopts the new
session id, while leaving every pending-Suggestion field unchanged. -/
theorem sessionCreated_resets_capture_keeps_suggestion
    (s : PluginState) (info : SessionInfo) :
    sessionCreated s info =
      { s with currentSessionId := info.id, promptCaptured := false, assistantParts := [] } ∧
    (sessionCreated s info).lastSuggestion = s.lastSuggestion ∧
    (sessionCreated s info).lastSuggestionTimestamp = s.lastSuggestionTimestamp ∧
    (sessionCreated s info).lastSuggestionPromptKey = s.lastSuggestionPromptKey ∧
    (sessionCreated s info).lastSuggestionId = s.lastSuggestionId ∧
    (sessionCreated s info).lastShownPromptKeys = s.lastShownPromptKeys ∧
    (sessionCreated s info).lastAcceptedFeedbackSent = s.lastAcceptedFeedbackSent ∧
    (sessionCreated s info).lastImplicitFeedbackSent = s.lastImplicitFeedbackSent :=
  ⟨rfl, rfl, rfl, rfl, rfl, rfl, rfl, rfl⟩

/-- **C7, counterexample** — a `chat.message` event whose text parts trim
to the empty string is *not* a complete no-op: the handler adopts
`input.sessionID` into `currentSessionId` before the empty-content check,
so a state holding session id `"old"` ends the handler holding `"new"`. -/
theorem chatMessage_empty_prompt_mutates_session_id :
    (chatMessage true true { initialState with currentSessionId := some "old" }
        ⟨some "new", none⟩ [] 0 "2026-01-01").1.currentSessionId = some "new" ∧
    ({ initialState with currentSessionId := some "old" } : PluginState).currentSessionId
      = some "old" ∧
    partsContent [] = "" := by
  refine ⟨?_, rfl, rfl⟩
  decide

/-- **C7, amended** — for a `chat.message` event whose concatenated text
parts trim to the empty string, the handler updates only
`currentSessionId`/`currentModel` (adopting non-nullish values from the
event), leaves every other piece of plugin state unchanged, runs no
correlation analysis and issues no external call. -/
theorem chatMessage_empty_prompt_frame (enableRlm captureOk : Bool) (s : PluginState)
    (input : ChatInput) (parts : List MsgPart) (now : Int) (today : String)
    (h : jsTrim (partsContent parts) = "") :
    chatMessage enableRlm captureOk s input parts now today =
      ({ s with currentSessionId := nullishKeep input.sessionID s.currentSessionId
                currentModel := nullishKeep input.modelID s.currentModel }, []) := by
  unfold chatMessage
  simp [h]

/-- Witness for `chatMessage_empty_prompt_frame` at a concrete state and
event. -/
theorem chatMessage_empty_prompt_frame_witness :
    chatMessage true true initialState ⟨some "sid", some "m"⟩
        [⟨"text", some "  "⟩] 5 "2026-01-01" =
      ({ initialState with currentSessionId := some "sid", currentModel := some "m" }, []) :=
  chatMessage_empty_prompt_frame true true initialState ⟨some "sid", some "m"⟩
    [⟨"text", some "  "⟩] 5 "2026-01-01" (by decide)

/-- **C3** — a debounce timer invocation whose captured generation differs
from the live generation counter performs no fetch, no daemon capture, no
UI injection and no state write; and after a second `tui.prompt.append`
trigger supersedes a first one, the first trigger's captured generation can
never match again, so its callback (were it even to fire) has no effects
whatever the fetch would have returned. -/
theorem staleTimer_no_effects (current : ℕ) (s1 : PluginState) (runIdAfterFetch : ℕ)
    (output : String) (parse : FetchParse) (now : Int) (newId : String)
    (s : PluginState) (t1 t2 : String)
    (h : current ≠ s1.runId) :
    timerFire current s1 runIdAfterFetch output parse now newId = (none, noEffects) ∧
    (scheduleSuggest s t1).timer = some (scheduleSuggest s t1).runId ∧
    (scheduleSuggest (scheduleSuggest s t1) t2).runId ≠ (scheduleSuggest s t1).runId ∧
    timerFire (scheduleSuggest s t1).runId (scheduleSuggest (scheduleSuggest s t1) t2)
      runIdAfterFetch output parse now newId = (none, noEffects) := by
  have key : ∀ (c : ℕ) (st : PluginState), c ≠ st.runId →
      timerFire c st runIdAfterFetch output parse now newId = (none, noEffects) := by
    intro c st hc
    unfold timerFire
    by_cases hp : jsTrim st.lastInput = ""
    · simp [hp]
    · simp [hp, hc]
  refine ⟨key current s1 h, rfl, ?_, key _ _ ?_⟩
  · simp [scheduleSuggest]
  · simp [scheduleSuggest]

/-- Witness for `staleTimer_no_effects` at concrete generations, states and
fetch data. -/
theorem staleTimer_no_effects_witness :
    timerFire 0 { initialState with runId := 1 } 0 "out" FetchParse.malformed 0 "id"
      = (none, noEffects) ∧
    (scheduleSuggest initialState "first").timer
      = some (scheduleSuggest initialState "first").runId ∧
    (scheduleSuggest (scheduleSuggest initialState "first") "second").runId
      ≠ (scheduleSuggest initialState "first").runId ∧
    timerFire (scheduleSuggest initialState "first").runId
      (scheduleSuggest (scheduleSuggest initialState "first") "second")
      0 "out" FetchParse.malformed 0 "id" = (none, noEffects) :=
  staleTimer_no_effects 0 { initialState with runId := 1 } 0 "out" FetchParse.malformed 0 "id"
    initialState "first" "second" (by decide)

/-- A string of length zero is the empty string. -/
theorem eq_empty_of_length_eq_zero : ∀ (x : String), x.length = 0 → x = ""
  | ⟨[]⟩, _ => rfl
  | ⟨c :: cs⟩, h => by simp [String.length] at h

/-- Appending onto a non-empty string stays non-empty. -/
theorem append_ne_empty_left (x y : String) (hx : x ≠ "") : x ++ y ≠ "" := by
  intro h
  apply hx
  have hlen := congrArg String.length h
  rw [String.length_append, show ("" : String).length = 0 from rfl] at hlen
  exact eq_empty_of_length_eq_zero x (by omega)

/-- Appending a non-empty string stays non-empty. -/
theorem append_ne_empty_right (x y : String) (hy : y ≠ "") : x ++ y ≠ "" := by
  intro h
  apply hy
  have hlen := congrArg String.length h
  rw [String.length_append, show ("" : String).length = 0 from rfl] at hlen
  exact eq_empty_of_length_eq_zero y (by omega)

/-- A rendered suggestion block is never the empty string (it ends with the
marker comment). -/
theorem renderBlock_ne_empty (r : SuggestResult) : renderBlock r ≠ "" := by
  unfold renderBlock
  exact append_ne_empty_right _ _ (by decide)

/-- The rendered output of a non-empty result list is non-empty. -/
theorem renderResults_ne_empty (r : SuggestResult) (rest : List SuggestResult) :
    renderResults (r :: rest) ≠ "" := by
  unfold renderResults
  rw [List.map_cons]
  cases h : rest.map renderBlock with
  | nil => simpa [joinSep] using renderBlock_ne_empty r
  | cons b bs =>
    simp only [joinSep]
    exact append_ne_empty_left _ _ (append_ne_empty_left _ _ (renderBlock_ne_empty r))

/-- **C8, counterexample** — `shownKeys` is *not* unique by value: two
candidates with the same bare key `"k"` install a Suggestion whose
`shownKeys` is `["k", "k"]`, which has a duplicated entry.  (The
qualification rule and `primaryKey = first shown key` do hold.) -/
theorem shownKeys_duplicates_possible :
    (timerFire 1 { initialState with lastInput := "q", runId := 1 } 1 "out"
        (FetchParse.parsed (some [⟨"A", "", "k", "", ""⟩, ⟨"B", "", "k", "", ""⟩])) 500 "id").1
      = some ⟨"A  k B  k", 500, some "k", "id", ["k", "k"], "q"⟩ ∧
    buildShownKeys [⟨"A", "", "k", "", ""⟩, ⟨"B", "", "k", "", ""⟩] = ["k", "k"] ∧
    ¬ (["k", "k"] : List String).Nodup := by
  refine ⟨by decide, by decide, by decide⟩

/-- **C8, amended** — for a Suggestion installed from a successfully parsed
fetch result with at least one candidate, `shownKeys` is the per-candidate
qualification (`library/key` when a library is present, else the bare
`key`) in result order with falsy entries dropped, and `primaryKey` is its
first element (`none` when it is empty); no deduplication is applied, so
`shownKeys` may contain duplicate values. -/
theorem structured_install_shownKeys (results : List SuggestResult)
    (r0 : SuggestResult) (rest : List SuggestResult) (hres : results = r0 :: rest)
    (s1 : PluginState) (output : String) (now : Int) (newId : String)
    (hprompt : jsTrim s1.lastInput ≠ "")
    (hinj : jsTrim s1.lastInput ≠ s1.lastInjected)
    (hout : output ≠ "") :
    timerFire s1.runId s1 s1.runId output (FetchParse.parsed (some results)) now newId
      = (some ⟨correlationTextOf results, now, (buildShownKeys results).head?, newId,
          buildShownKeys results, jsTrim s1.lastInput⟩, ⟨true, true, true⟩) ∧
    buildShownKeys results
      = (results.map (fun r => if r.library ≠ "" then r.library ++ "/" ++ r.key else r.key)).filter
          (fun k => k ≠ "") := by
  constructor
  · subst hres
    have hrr := renderResults_ne_empty r0 rest
    unfold timerFire
    simp [hprompt, hinj, hout, hrr]
  · rfl

/-- Witness for `structured_install_shownKeys` at a concrete state and
result list. -/
theorem structured_install_shownKeys_witness :
    timerFire 3 { initialState with lastInput := "p", runId := 3 } 3 "raw"
        (FetchParse.parsed (some [⟨"N", "d", "key1", "lib", ""⟩])) 7 "sid"
      = (some ⟨"N d key1", 7, some "lib/key1", "sid", ["lib/key1"], "p"⟩, ⟨true, true, true⟩) ∧
    buildShownKeys [⟨"N", "d", "key1", "lib", ""⟩]
      = (([⟨"N", "d", "key1", "lib", ""⟩] : List SuggestResult).map
          (fun r => if r.library ≠ "" then r.library ++ "/" ++ r.key else r.key)).filter
          (fun k => k ≠ "") := by
  have h := structured_install_shownKeys [⟨"N", "d", "key1", "lib", ""⟩]
    ⟨"N", "d", "key1", "lib", ""⟩ [] rfl
    { initialState with lastInput := "p", runId := 3 } "raw" 7 "sid"
    (by decide) (by decide) (by decide)
  exact ⟨h.1, h.2⟩

/-- Filtering by membership in the empty key set yields nothing. -/
theorem filter_contains_nil (l : List String) :
    l.filter (fun k => List.contains ([] : List String) k) = [] := by
  induction l with
  | nil => rfl
  | cons a t ih => simp [ih]

/-- **C10** — a Suggestion installed via the raw-text fallback path (JSON
parse failed) keeps `lastShownPromptKeys` empty even when a `primaryKey`
was extracted, and for any state whose `lastShownPromptKeys` is empty the
`message.updated` handler can never emit an `implicitly_helpful` feedback
event, whatever the response text contains. -/
theorem fallback_install_never_implicit (s1 : PluginState) (output : String)
    (now : Int) (newId : String)
    (hprompt : jsTrim s1.lastInput ≠ "")
    (hinj : jsTrim s1.lastInput ≠ s1.lastInjected)
    (hout : output ≠ "")
    (s : PluginState) (role : Option String) (now2 : Int)
    (hempty : s.lastShownPromptKeys = []) :
    timerFire s1.runId s1 s1.runId output FetchParse.malformed now newId
      = (some ⟨output, now, parseSuggestionKey output, newId, [], jsTrim s1.lastInput⟩,
         ⟨true, true, true⟩) ∧
    implicitCount (messageUpdated s role now2).2 = 0 := by
  constructor
  · unfold timerFire
    simp [hprompt, hinj, hout]
  · unfold messageUpdated
    simp only [hempty, filter_contains_nil]
    split
    · split
      · split
        · split
          · simp at *
          · split <;> simp [implicitCount]
        · split <;> simp [implicitCount]
      · split <;> simp [implicitCount]
    · simp [implicitCount]

/-- Witness for `fallback_install_never_implicit`: a concrete fallback
install (with an extracted primary key) and a concrete completion carrying
a literal marker for that key, which still emits nothing. -/
theorem fallback_install_never_implicit_witness :
    timerFire 1 { initialState with lastInput := "q", runId := 1 } 1
        "My Prompt (key: ultra-work)" FetchParse.malformed 50 "sid"
      = (some ⟨"My Prompt (key: ultra-work)", 50, some "ultra-work", "sid", [], "q"⟩,
         ⟨true, true, true⟩) ∧
    implicitCount
      (messageUpdated
        { initialState with
            promptCaptured := true
            assistantParts := ["done [[sage:prompt_key=ultra-work]]"]
            lastSuggestion := some "My Prompt (key: ultra-work)"
            lastSuggestionTimestamp := some 50
            lastSuggestionPromptKey := some "ultra-work"
            lastSuggestionId := some "sid" }
        (some "assistant") 60).2 = 0 :=
  fallback_install_never_implicit { initialState with lastInput := "q", runId := 1 }
    "My Prompt (key: ultra-work)" 50 "sid" (by decide) (by decide) (by decide)
    { initialState with
        promptCaptured := true
        assistantParts := ["done [[sage:prompt_key=ultra-work]]"]
        lastSuggestion := some "My Prompt (key: ultra-work)"
        lastSuggestionTimestamp := some 50
        lastSuggestionPromptKey := some "ultra-work"
        lastSuggestionId := some "sid" }
    (some "assistant") 60 rfl

/-- **C6** — a user prompt arriving when the live Suggestion's age strictly
exceeds the 30 000 ms window yields a null correlation and no correlation
feedback call (neither the legacy append nor the daemon feedback call);
likewise the analyzer is null when there is no live Suggestion, no
timestamp, or no usable key. -/
theorem expired_window_no_feedback (sug sug2 prompt : String) (ts ts2 now : Int)
    (key : Option String)
    (enableRlm captureOk : Bool) (s : PluginState) (input : ChatInput)
    (parts : List MsgPart) (today : String)
    (hts : s.lastSuggestionTimestamp = some ts)
    (hwin : now - ts > SUGGESTION_CORRELATION_WINDOW_MS) :
    analyzePromptCorrelation (some sug) (some ts) key now prompt = none ∧
    analyzePromptCorrelation none (some ts2) key now prompt = none ∧
    analyzePromptCorrelation (some sug2) none key now prompt = none ∧
    analyzePromptCorrelation (some sug2) (some ts2) none now prompt = none ∧
    analyzePromptCorrelation (some sug2) (some ts2) (some "") now prompt = none ∧
    (chatMessage enableRlm captureOk s input parts now today).2.filter isCorrFb = [] := by
  have hnone : ∀ (ls : Option String) (k : Option String) (p : String),
      analyzePromptCorrelation ls (some ts) k now p = none := by
    intro ls k p
    cases ls with
    | none => rfl
    | some sg =>
      by_cases h1 : sg = "" ∨ ts = 0
      · simp [analyzePromptCorrelation, h1]
      · simp [analyzePromptCorrelation, h1, hwin]
  refine ⟨hnone (some sug) key prompt, rfl, rfl, ?_, ?_, ?_⟩
  · simp [analyzePromptCorrelation]
  · simp [analyzePromptCorrelation]
  · unfold chatMessage
    by_cases hc : jsTrim (partsContent parts) = ""
    · simp [hc]
    · simp only [hc, if_neg, ite_false, if_false]
      simp [hts, hnone, isCorrFb]

/-- Witness for `expired_window_no_feedback`: a Suggestion shown at t=100
and a prompt at t=40000 (39 900 ms later). -/
theorem expired_window_no_feedback_witness :
    analyzePromptCorrelation (some "x y") (some 100) (some "k") 40000 "x y" = none ∧
    analyzePromptCorrelation none (some 7) (some "k") 40000 "x y" = none ∧
    analyzePromptCorrelation (some "z") none (some "k") 40000 "x y" = none ∧
    analyzePromptCorrelation (some "z") (some 7) none 40000 "x y" = none ∧
    analyzePromptCorrelation (some "z") (some 7) (some "") 40000 "x y" = none ∧
    (chatMessage true true
        { initialState with
            lastSuggestion := some "x y"
            lastSuggestionTimestamp := some 100
            lastSuggestionPromptKey := some "k"
            lastSuggestionId := some "sid" }
        ⟨some "s1", some "m"⟩ [⟨"text", some "x y"⟩] 40000 "2026-03-03").2.filter isCorrFb
      = [] :=
  expired_window_no_feedback "x y" "z" "x y" 100 7 40000 (some "k") true true
    { initialState with
        lastSuggestion := some "x y"
        lastSuggestionTimestamp := some 100
        lastSuggestionPromptKey := some "k"
        lastSuggestionId := some "sid" }
    ⟨some "s1", some "m"⟩ [⟨"text", some "x y"⟩] "2026-03-03" rfl (by decide)

/-- **C5, counterexample** — after a `chat.message` whose correlation
classifies (here: `accepted`, with both the legacy append and the daemon
feedback emitted), the Suggestion fields are *not* cleared: the handler
deliberately keeps them for the later implicit-marker check. -/
theorem suggestion_not_cleared_after_classification :
    (chatMessage true true
        { initialState with
            lastSuggestion := some "alpha beta"
            lastSuggestionTimestamp := some 100
            lastSuggestionPromptKey := some "kk"
            lastSuggestionId := some "id9"
            lastShownPromptKeys := ["kk"] }
        ⟨some "s1", some "m"⟩ [⟨"text", some "alpha beta"⟩] 200 "2026-02-02").1.lastSuggestion
      = some "alpha beta" ∧
    (chatMessage true true
        { initialState with
            lastSuggestion := some "alpha beta"
            lastSuggestionTimestamp := some 100
            lastSuggestionPromptKey := some "kk"
            lastSuggestionId := some "id9"
            lastShownPromptKeys := ["kk"] }
        ⟨some "s1", some "m"⟩ [⟨"text", some "alpha beta"⟩] 200 "2026-02-02").1.lastSuggestionId
      = some "id9" ∧
    ((chatMessage true true
        { initialState with
            lastSuggestion := some "alpha beta"
            lastSuggestionTimestamp := some 100
            lastSuggestionPromptKey := some "kk"
            lastSuggestionId := some "id9"
            lastShownPromptKeys := ["kk"] }
        ⟨some "s1", some "m"⟩ [⟨"text", some "alpha beta"⟩] 200 "2026-02-02").2.filter
        isCorrFb).length = 2 := by
  refine ⟨by decide, by decide, by decide⟩

/-- **C5, amended** — after a `chat.message` for which the analyzer returns
a non-null classification, the Suggestion is *kept*: `lastSuggestion`,
`lastSuggestionTimestamp`, `lastSuggestionPromptKey`, `lastSuggestionId`
and `lastShownPromptKeys` are unchanged at the end of the handler (only
`lastAcceptedFeedbackSent` flips to true when the daemon feedback is sent);
clearing happens later, in the `message.updated` handler, once the window
has elapsed. -/
theorem classification_keeps_suggestion (enableRlm captureOk : Bool) (s : PluginState)
    (input : ChatInput) (parts : List MsgPart) (now : Int) (today : String)
    (corr : Correlation)
    (hcorr : analyzePromptCorrelation s.lastSuggestion s.lastSuggestionTimestamp
        s.lastSuggestionPromptKey now (partsContent parts) = some corr)
    (hc : jsTrim (partsContent parts) ≠ "") :
    (chatMessage enableRlm captureOk s input parts now today).1.lastSuggestion
      = s.lastSuggestion ∧
    (chatMessage enableRlm captureOk s input parts now today).1.lastSuggestionTimestamp
      = s.lastSuggestionTimestamp ∧
    (chatMessage enableRlm captureOk s input parts now today).1.lastSuggestionPromptKey
      = s.lastSuggestionPromptKey ∧
    (chatMessage enableRlm captureOk s input parts now today).1.lastSuggestionId
      = s.lastSuggestionId ∧
    (chatMessage enableRlm captureOk s input parts now today).1.lastShownPromptKeys
      = s.lastShownPromptKeys ∧
    (jsTruthyStr s.lastSuggestionId = true → s.lastAcceptedFeedbackSent = false →
      (chatMessage enableRlm captureOk s input parts now today).1.lastAcceptedFeedbackSent
        = true) := by
  unfold chatMessage
  simp only [hc, ite_false, if_false, hcorr]
  split <;> split <;> simp_all

/-- Witness for `classification_keeps_suggestion` at a concrete accepted
classification. -/
theorem classification_keeps_suggestion_witness :
    (chatMessage true true
        { initialState with
            lastSuggestion := some "gamma delta"
            lastSuggestionTimestamp := some 250
            lastSuggestionPromptKey := some "k2"
            lastSuggestionId := some "id2"
            lastShownPromptKeys := ["k2"] }
        ⟨some "s2", none⟩ [⟨"text", some "gamma delta"⟩] 300 "2026-02-03").1.lastSuggestion
      = some "gamma delta" ∧
    (chatMessage true true
        { initialState with
            lastSuggestion := some "gamma delta"
            lastSuggestionTimestamp := some 250
            lastSuggestionPromptKey := some "k2"
            lastSuggestionId := some "id2"
            lastShownPromptKeys := ["k2"] }
        ⟨some "s2", none⟩ [⟨"text", some "gamma delta"⟩] 300 "2026-02-03").1.lastAcceptedFeedbackSent
      = true := by
  have h := classification_keeps_suggestion true true
    { initialState with
        lastSuggestion := some "gamma delta"
        lastSuggestionTimestamp := some 250
        lastSuggestionPromptKey := some "k2"
        lastSuggestionId := some "id2"
        lastShownPromptKeys := ["k2"] }
    ⟨some "s2", none⟩ [⟨"text", some "gamma delta"⟩] 300 "2026-02-03"
    ⟨.accepted, "k2", 1, none, none⟩ (by decide) (by decide)
  exact ⟨h.1, h.2.2.2.2.2 rfl rfl⟩

/-- **C4** — on an assistant completion with a non-empty joined response,
while a live Suggestion is within the 30-second window: if exactly one
parsed marker is a member of `shownKeys` and implicit feedback has not been
sent, exactly one `implicitly_helpful` event with confidence 1.0 and that
key is emitted and `implicitFeedbackSent` becomes true; if zero or two or
more markers match, nothing is emitted; and once `implicitFeedbackSent` is
true, a further completion emits nothing. -/
theorem implicit_marker_feedback (s : PluginState) (now : Int)
    (hpc : s.promptCaptured = true)
    (hne : jsTrim (String.join s.assistantParts) ≠ "")
    (hid : jsTruthyStr s.lastSuggestionId = true)
    (hts : jsTruthyInt s.lastSuggestionTimestamp = true)
    (hwin : now - s.lastSuggestionTimestamp.getD 0 ≤ SUGGESTION_CORRELATION_WINDOW_MS) :
    ((s.lastImplicitFeedbackSent = false ∧
        ((parsePromptKeyMarkers (String.join s.assistantParts)).filter
          (fun k => s.lastShownPromptKeys.contains k)).length = 1) →
      implicitCount (messageUpdated s (some "assistant") now).2 = 1 ∧
      Event.suggestionFeedback (s.lastSuggestionId.getD "")
          [⟨FbKind.implicitly_helpful,
            ((parsePromptKeyMarkers (String.join s.assistantParts)).filter
              (fun k => s.lastShownPromptKeys.contains k)).headI, 1⟩]
        ∈ (messageUpdated s (some "assistant") now).2 ∧
      (messageUpdated s (some "assistant") now).1.lastImplicitFeedbackSent = true) ∧
    ((s.lastImplicitFeedbackSent = false ∧
        ((parsePromptKeyMarkers (String.join s.assistantParts)).filter
          (fun k => s.lastShownPromptKeys.contains k)).length ≠ 1) →
      implicitCount (messageUpdated s (some "assistant") now).2 = 0) ∧
    (s.lastImplicitFeedbackSent = true →
      implicitCount (messageUpdated s (some "assistant") now).2 = 0) := by
  have hnw : ¬ (now - s.lastSuggestionTimestamp.getD 0 > SUGGESTION_CORRELATION_WINDOW_MS) :=
    not_lt.mpr hwin
  refine ⟨?_, ?_, ?_⟩
  · rintro ⟨hsent, hm⟩
    have hm' : (List.filter (fun k => decide (k ∈ s.lastShownPromptKeys))
        (parsePromptKeyMarkers (String.join s.assistantParts))).length = 1 := by
      simpa using hm
    simp [messageUpdated, hpc, hne, hid, hts, hsent, hwin, hnw, hm', implicitCount]
  · rintro ⟨hsent, hm⟩
    have hm' : ¬ (List.filter (fun k => decide (k ∈ s.lastShownPromptKeys))
        (parsePromptKeyMarkers (String.join s.assistantParts))).length = 1 := by
      simpa using hm
    simp [messageUpdated, hpc, hne, hid, hts, hsent, hwin, hnw, hm', implicitCount]
  · intro hsent
    simp [messageUpdated, hpc, hne, hsent, hnw, implicitCount]

/-- Witness for `implicit_marker_feedback`: a concrete completion whose
response carries exactly one marker matching the shown keys. -/
theorem implicit_marker_feedback_witness :
    implicitCount
        (messageUpdated
          { initialState with
              promptCaptured := true
              assistantParts := ["ok [[sage:prompt_key=lib/k]]"]
              lastSuggestion := some "text"
              lastSuggestionTimestamp := some 1000
              lastSuggestionPromptKey := some "lib/k"
              lastSuggestionId := some "idW"
              lastShownPromptKeys := ["lib/k"] }
          (some "assistant") 2000).2 = 1 ∧
    (messageUpdated
        { initialState with
            promptCaptured := true
            assistantParts := ["ok [[sage:prompt_key=lib/k]]"]
            lastSuggestion := some "text"
            lastSuggestionTimestamp := some 1000
            lastSuggestionPromptKey := some "lib/k"
            lastSuggestionId := some "idW"
            lastShownPromptKeys := ["lib/k"] }
        (some "assistant") 2000).1.lastImplicitFeedbackSent = true := by
  have h := implicit_marker_feedback
    { initialState with
        promptCaptured := true
        assistantParts := ["ok [[sage:prompt_key=lib/k]]"]
        lastSuggestion := some "text"
        lastSuggestionTimestamp := some 1000
        lastSuggestionPromptKey := some "lib/k"
        lastSuggestionId := some "idW"
        lastShownPromptKeys := ["lib/k"] }
    2000 rfl (by decide) rfl rfl (by decide)
  have h1 := h.1 ⟨rfl, by decide⟩
  exact ⟨h1.1, h1.2.2⟩

/-- In-window, with a usable key, the analyzer reduces to its threshold
comparison on the overlap ratio. -/
theorem analyze_in_window_eq (sug : String) (ts : Int) (k : String) (now : Int)
    (prompt : String) (hsug : sug ≠ "") (hts : ts ≠ 0)
    (hwin : now - ts ≤ SUGGESTION_CORRELATION_WINDOW_MS) (hk : k ≠ "") :
    analyzePromptCorrelation (some sug) (some ts) (some k) now prompt =
      (if overlapRatioOf prompt sug > acceptThreshold then
        some ⟨.accepted, k, overlapRatioOf prompt sug, none, none⟩
      else if overlapRatioOf prompt sug > steerThreshold then
        some ⟨.steered, k, overlapRatioOf prompt sug,
          some (addedKeywords prompt sug), some (removedKeywords prompt sug)⟩
      else some ⟨.rejected, k, overlapRatioOf prompt sug, none, none⟩) := by
  simp only [analyzePromptCorrelation]
  rw [if_neg (fun h => h.elim hsug hts), if_neg (not_lt.mpr hwin), if_neg hk]

/-- **C1** — for a live in-window Suggestion with a usable key the analyzer
classifies strictly by the overlap ratio: `> 0.7` is `accepted`;
`0.3 < ratio ≤ 0.7` is `steered` (with the added/removed keyword lists);
`≤ 0.3` is `rejected`; in particular a ratio of exactly `0.7` is
`steered`, not `accepted`. -/
theorem analyze_threshold_classification (sug : String) (ts : Int) (k : String)
    (now : Int) (prompt : String)
    (hsug : sug ≠ "") (hts : ts ≠ 0)
    (hwin : now - ts ≤ SUGGESTION_CORRELATION_WINDOW_MS) (hk : k ≠ "") :
    (overlapRatioOf prompt sug > 7/10 →
      analyzePromptCorrelation (some sug) (some ts) (some k) now prompt
        = some ⟨.accepted, k, overlapRatioOf prompt sug, none, none⟩) ∧
    (3/10 < overlapRatioOf prompt sug ∧ overlapRatioOf prompt sug ≤ 7/10 →
      analyzePromptCorrelation (some sug) (some ts) (some k) now prompt
        = some ⟨.steered, k, overlapRatioOf prompt sug,
            some (addedKeywords prompt sug), some (removedKeywords prompt sug)⟩) ∧
    (overlapRatioOf prompt sug ≤ 3/10 →
      analyzePromptCorrelation (some sug) (some ts) (some k) now prompt
        = some ⟨.rejected, k, overlapRatioOf prompt sug, none, none⟩) ∧
    (overlapRatioOf prompt sug = 7/10 →
      analyzePromptCorrelation (some sug) (some ts) (some k) now prompt
        = some ⟨.steered, k, overlapRatioOf prompt sug,
            some (addedKeywords prompt sug), some (removedKeywords prompt sug)⟩) := by
  have e := analyze_in_window_eq sug ts k now prompt hsug hts hwin hk
  rw [acceptThreshold_eq_div, steerThreshold_eq_div] at e
  have hsteer : 3/10 < overlapRatioOf prompt sug ∧ overlapRatioOf prompt sug ≤ 7/10 →
      analyzePromptCorrelation (some sug) (some ts) (some k) now prompt
        = some ⟨.steered, k, overlapRatioOf prompt sug,
            some (addedKeywords prompt sug), some (removedKeywords prompt sug)⟩ := by
    rintro ⟨h1, h2⟩
    rw [e, if_neg (not_lt.mpr h2), if_pos h1]
  refine ⟨?_, hsteer, ?_, ?_⟩
  · intro h
    rw [e, if_pos h]
  · intro h
    rw [e, if_neg (not_lt.mpr (h.trans (by norm_num))), if_neg (not_lt.mpr h)]
  · intro h
    exact hsteer ⟨by rw [h]; norm_num, le_of_eq h⟩

/-- Witness for `analyze_threshold_classification`: ten user tokens, seven
of them shared with ten suggestion tokens — an overlap of exactly 0.7,
classified `steered`. -/
theorem analyze_threshold_classification_witness :
    analyzePromptCorrelation (some "a b c d e f g x y z") (some 1000) (some "lib/k") 1000
        "a b c d e f g h i j"
      = some ⟨.steered, "lib/k", mkRat 7 10, some ["h", "i", "j"], some ["x", "y", "z"]⟩ := by
  have h := analyze_threshold_classification "a b c d e f g x y z" 1000 "lib/k" 1000
    "a b c d e f g h i j" (by decide) (by decide) (by decide) (by decide)
  have h70 : overlapRatioOf "a b c d e f g h i j" "a b c d e f g x y z" = mkRat 7 10 := by
    decide
  have hb : (mkRat 7 10 : ℚ) = 7/10 := acceptThreshold_eq_div
  have h4 := h.2.2.2 (h70.trans hb)
  rw [h4]
  decide

/-- The source's ratio coincides with the spec-worded one. -/
theorem overlapRatioOf_eq_spec (prompt sug : String) :
    overlapRatioOf prompt sug = specOverlapRatio prompt sug := by
  rw [overlapRatioOf_eq_div, specOverlapRatio]
  congr 2
  rw [overlapCount, List.countP_eq_length_filter]
  congr 1
  apply List.filter_congr
  intro x _
  simp [List.contains]

/-- If the analyzer returns a result, its `overlap` field is the ratio of
its two text inputs. -/
theorem analyze_some_overlap (sug : String) (ts : Int) (key : Option String)
    (now : Int) (prompt : String) (r : Correlation)
    (hr : analyzePromptCorrelation (some sug) (some ts) key now prompt = some r) :
    r.overlap = overlapRatioOf prompt sug := by
  cases key with
  | none =>
    exfalso
    simp only [analyzePromptCorrelation] at hr
    split_ifs at hr
  | some k =>
    simp only [analyzePromptCorrelation] at hr
    split_ifs at hr <;> (injection hr with hr2; subst hr2; rfl)

/-- **C2** — for non-empty prompt and suggestion texts, whenever the
analyzer returns a result its `overlap` equals the spec's containment
ratio (per-occurrence membership count over the larger token count), and
that ratio always lies in `[0, 1]`. -/
theorem overlap_ratio_bounds (prompt sug : String)
    (_hp : prompt ≠ "") (_hs : sug ≠ "")
    (ts : Int) (key : Option String) (now : Int) (r : Correlation)
    (hr : analyzePromptCorrelation (some sug) (some ts) key now prompt = some r) :
    r.overlap = specOverlapRatio prompt sug ∧ 0 ≤ r.overlap ∧ r.overlap ≤ 1 := by
  have hov := analyze_some_overlap sug ts key now prompt r hr
  have hmax1 : 1 ≤ max (jsTokens prompt).length (jsTokens sug).length :=
    le_trans (one_le_jsTokens_length prompt) (le_max_left _ _)
  have hden : (0 : ℚ) < ((max (jsTokens prompt).length (jsTokens sug).length : ℕ) : ℚ) := by
    exact_mod_cast hmax1
  have hcount : overlapCount (jsTokens prompt) (jsTokens sug)
      ≤ max (jsTokens prompt).length (jsTokens sug).length :=
    le_trans (List.length_filter_le _ _) (le_max_left _ _)
  refine ⟨hov.trans (overlapRatioOf_eq_spec prompt sug), ?_, ?_⟩
  · rw [hov, overlapRatioOf_eq_div]
    exact div_nonneg (by positivity) (le_of_lt hden)
  · rw [hov, overlapRatioOf_eq_div]
    rw [div_le_one hden]
    exact_mod_cast hcount

/-- Witness for `overlap_ratio_bounds` at a concrete in-window analysis. -/
theorem overlap_ratio_bounds_witness :
    analyzePromptCorrelation (some "alpha beta") (some 10) (some "kx") 20 "alpha gamma"
      = some ⟨.steered, "kx", mkRat 1 2, some ["gamma"], some ["beta"]⟩ ∧
    (mkRat 1 2 : ℚ) = specOverlapRatio "alpha gamma" "alpha beta" ∧
    (0 : ℚ) ≤ mkRat 1 2 ∧ (mkRat 1 2 : ℚ) ≤ 1 := by
  have hr : analyzePromptCorrelation (some "alpha beta") (some 10) (some "kx") 20 "alpha gamma"
      = some ⟨.steered, "kx", mkRat 1 2, some ["gamma"], some ["beta"]⟩ := by decide
  have h := overlap_ratio_bounds "alpha gamma" "alpha beta" (by decide) (by decide)
    10 (some "kx") 20 ⟨.steered, "kx", mkRat 1 2, some ["gamma"], some ["beta"]⟩ hr
  exact ⟨hr, h.1, h.2.1, h.2.2⟩

end Sage
